import Mathlib

/-!
# Node gRPC controller (controllers/nodeGrpcController.go)

A shallow embedding of the handlers of `NodeServiceServer`.  The handlers are
thin: they convert between wire records and domain records, call collaborators
that live in other packages (`functions`, `models`, the store helpers of the
`controller` package, the gRPC stream) and decide which status code to return.

The collaborators are not part of this file of the repository, so they are
parameters of the embedding (`Collab`).  Lookups are functions of the store
state; writers return a new store state.  Every handler returns its gRPC
result, the final store state and the list of writer calls it issued, in
program order.
-/

namespace Netmaker

/-- The gRPC status codes of `google.golang.org/grpc/codes`. -/
inductive Codes
  | OK | Canceled | Unknown | InvalidArgument | DeadlineExceeded | NotFound
  | AlreadyExists | PermissionDenied | ResourceExhausted | FailedPrecondition
  | Aborted | OutOfRange | Unimplemented | Internal | Unavailable | DataLoss
  | Unauthenticated
  deriving DecidableEq, Repr

/-- What a handler returns in its `error` position.  `status c m` is a status
error with code `c` and message text `m`.  `formatted c f` is a status error
with code `c` whose message is what `fmt.Sprintf(f)`, called with no operands,
makes of a format `f` that contains `%`; that text is not interpreted here.
`passthrough e` is a collaborator error returned unchanged (`return nil, err`).
A Go `error` of a collaborator is modelled by its message. -/
inductive RpcError
  | status (code : Codes) (msg : String)
  | formatted (code : Codes) (format : String)
  | passthrough (err : String)
  deriving DecidableEq, Repr

/-- The code `status.Code` reports for a returned error: the code of a status
error, `Unknown` for an error that is not a status. -/
def RpcError.code : RpcError → Codes
  | .status c _ => c
  | .formatted c _ => c
  | .passthrough _ => Codes.Unknown

/-- The call `status.Errorf(c, format)` with no operands, which is how every
call of this file is made: the text built by `fmt.Sprintf` is passed as the
format.  The message is `fmt.Sprintf(format)`: a format without `%` is copied
as it is, a format with `%` is formatted once more. -/
def Errorf (c : Codes) (format : String) : RpcError :=
  if format.data.contains '%' then .formatted c format else .status c format

/-- The fields of `models.Node` this controller reads or writes.  Defaults are
the Go zero values. -/
structure Node where
  MacAddress : String := ""
  Name : String := ""
  Address : String := ""
  Address6 : String := ""
  LocalAddress : String := ""
  AccessKey : String := ""
  Endpoint : String := ""
  PersistentKeepalive : Int := 0
  Password : String := ""
  Interface : String := ""
  Network : String := ""
  PostDown : String := ""
  PostUp : String := ""
  CheckInInterval : Int := 0
  IsPending : Bool := false
  IsIngressGateway : Bool := false
  IngressGatewayRange : String := ""
  PublicKey : String := ""
  ListenPort : Int := 0
  UDPHolePunch : Bool := false
  deriving DecidableEq, Repr

/-- The fields of `models.Network` this controller reads. -/
structure Network where
  IsLocal : String := ""
  IsDualStack : String := ""
  LocalRange : String := ""
  AllowManualSignUp : String := ""
  deriving DecidableEq, Repr

/-- The wire record `nodepb.Node`.  A getter on a nil message returns the zero
value, which is the default of each field here. -/
structure PbNode where
  Macaddress : String := ""
  Name : String := ""
  Address : String := ""
  Address6 : String := ""
  Endpoint : String := ""
  Password : String := ""
  Nodenetwork : String := ""
  Interface : String := ""
  Localaddress : String := ""
  Postdown : String := ""
  Postup : String := ""
  Checkininterval : Int := 0
  Dnsoff : Bool := false
  Ispending : Bool := false
  Isingressgateway : Bool := false
  Ingressgatewayrange : String := ""
  Publickey : String := ""
  Listenport : Int := 0
  Keepalive : Int := 0
  Islocal : Bool := false
  Isdualstack : Bool := false
  Localrange : String := ""
  Udpholepunch : Bool := false
  Accesskey : String := ""
  deriving DecidableEq, Repr

/-- The record `models.CheckInResponse`: the verdict of the check-in
reconciler. -/
structure CheckInResponse where
  Success : Bool := false
  NeedPeerUpdate : Bool := false
  NeedConfigUpdate : Bool := false
  NeedKeyUpdate : Bool := false
  NeedDelete : Bool := false
  NodeMessage : String := ""
  IsPending : Bool := false
  deriving DecidableEq, Repr

/-- The wire record `nodepb.CheckInResponse`. -/
structure PbCheckInResponse where
  Success : Bool := false
  Needpeerupdate : Bool := false
  Needdelete : Bool := false
  Needconfigupdate : Bool := false
  Needkeyupdate : Bool := false
  Nodemessage : String := ""
  Ispending : Bool := false
  deriving DecidableEq, Repr

/-- The record `models.PeersResponse`, as far as `GetPeers` reads it. -/
structure PeersResponse where
  Address : String := ""
  Address6 : String := ""
  Endpoint : String := ""
  EgressGatewayRange : String := ""
  IsEgressGateway : Bool := false
  PublicKey : String := ""
  KeepAlive : Int := 0
  ListenPort : Int := 0
  LocalAddress : String := ""
  deriving DecidableEq, Repr

/-- The wire record `nodepb.PeersResponse`. -/
structure PbPeersResponse where
  Address : String := ""
  Address6 : String := ""
  Endpoint : String := ""
  Egressgatewayrange : String := ""
  Isegressgateway : Bool := false
  Publickey : String := ""
  Keepalive : Int := 0
  Listenport : Int := 0
  Localaddress : String := ""
  deriving DecidableEq, Repr

/-- The record `models.ExtPeersResponse`, as far as `GetExtPeers` reads it. -/
structure ExtPeersResponse where
  Address : String := ""
  Address6 : String := ""
  Endpoint : String := ""
  PublicKey : String := ""
  KeepAlive : Int := 0
  ListenPort : Int := 0
  LocalAddress : String := ""
  deriving DecidableEq, Repr

/-- The wire record `nodepb.ExtPeersResponse`. -/
structure PbExtPeersResponse where
  Address : String := ""
  Address6 : String := ""
  Endpoint : String := ""
  Publickey : String := ""
  Keepalive : Int := 0
  Listenport : Int := 0
  Localaddress : String := ""
  deriving DecidableEq, Repr

/-- A writer call issued by a handler, with its arguments.  A stream send also
records what the send returned, which the handlers themselves drop. -/
inductive Call
  | createNode (node : Node) (network : String)
  | setNetworkNodesLastModified (network : String)
  | nodeCheckIn (node : Node) (network : String)
  | nodeUpdate (current : Node) (newnode : Node)
  | deleteNode (macaddress : String) (network : String)
  | timestampNode (node : Node) (updatecheckin updatepeers updatelm : Bool)
  | sendPeer (msg : PbPeersResponse) (err : Option String)
  | sendExtPeer (msg : PbExtPeersResponse) (err : Option String)
  deriving DecidableEq, Repr

/-- The collaborators the handlers call, over a store state `σ`.
Lookups read the state; writers return the new state.  An `Option String` in
result position is a Go `error` (`none` is `nil`). -/
structure Collab (σ : Type) where
  /-- The call `servercfg.IsDNSMode()`. -/
  isDNSMode : Bool
  /-- The call `node.Validate(isUpdate)`. -/
  validate : Node → Bool → σ → Option String
  /-- The call `functions.IsKeyValid(network, key)`. -/
  isKeyValid : String → String → σ → Bool
  /-- The call `functions.GetParentNetwork(name)`: the network and the error. -/
  getParentNetwork : String → σ → Network × Option String
  /-- The call `GetNode(macaddress, network)`. -/
  getNode : String → String → σ → Except String Node
  /-- The call `functions.GetNodeByMacAddress(network, macaddress)`. -/
  getNodeByMacAddress : String → String → σ → Except String Node
  /-- The store insert `CreateNode(node, network)`. -/
  createNode : Node → String → σ → Except String Node × σ
  /-- The call `SetNetworkNodesLastModified(network)`. -/
  setNetworkNodesLastModified : String → σ → Option String × σ
  /-- The reconciler `NodeCheckIn(node, network)`: a verdict and an error. -/
  nodeCheckIn : Node → String → σ → (CheckInResponse × Option String) × σ
  /-- The call `node.Update(&newnode)`: the error and `newnode` after the call. -/
  nodeUpdate : Node → Node → σ → (Option String × Node) × σ
  /-- The store delete `DeleteNode(macaddress, network)`. -/
  deleteNode : String → String → σ → Option String × σ
  /-- The call `GetPeersList(network)`. -/
  getPeersList : String → σ → Except String (List PeersResponse)
  /-- The call `GetExtPeersList(network, macaddress)`. -/
  getExtPeersList : String → String → σ → Except String (List ExtPeersResponse)
  /-- The call `TimestampNode(node, updatecheckin, updatepeers, updatelm)`. -/
  timestampNode : Node → Bool → Bool → Bool → σ → Option String × σ
  /-- The call `stream.Send` of the `GetPeers` stream. -/
  sendPeer : PbPeersResponse → σ → Option String × σ
  /-- The call `stream.Send` of the `GetExtPeers` stream. -/
  sendExtPeer : PbExtPeersResponse → σ → Option String × σ

/-- What a handler run produces: the gRPC result, the store state after the
run, and the writer calls issued, in program order. -/
structure Outcome (σ : Type) (α : Type) where
  result : Except RpcError α
  state : σ
  calls : List Call

/-- Whether a handler run ended in an error. -/
def Outcome.failed {σ α : Type} (o : Outcome σ α) : Bool :=
  match o.result with
  | .error _ => true
  | .ok _ => false

/-- The request `nodepb.CreateNodeReq`; `Node` may be nil. -/
structure CreateNodeReq where
  Node : Option PbNode := none
  deriving DecidableEq, Repr

/-- The reply `nodepb.CreateNodeRes`. -/
structure CreateNodeRes where
  Node : PbNode
  deriving DecidableEq, Repr

/-- The domain node `CreateNode` builds from the request (lines 71-90). -/
def createNodeOfReq (req : CreateNodeReq) : Node :=
  let data := req.Node.getD {}
  { MacAddress := data.Macaddress
    LocalAddress := data.Localaddress
    Name := data.Name
    Address := data.Address
    Address6 := data.Address6
    AccessKey := data.Accesskey
    Endpoint := data.Endpoint
    PersistentKeepalive := data.Keepalive
    Password := data.Password
    Interface := data.Interface
    Network := data.Nodenetwork
    IsPending := data.Ispending
    PublicKey := data.Publickey
    ListenPort := data.Listenport
    UDPHolePunch := data.Udpholepunch }

/-- The admission decision of `CreateNode` (lines 107-118): with a valid key
the node goes on unchanged; with an invalid key it goes on flagged pending when
the network allows manual sign-up, and the request is refused otherwise. -/
def admission (validKey : Bool) (network : Network) (node : Node) : Except RpcError Node :=
  if !validKey then
    if network.AllowManualSignUp == "yes" then
      .ok { node with IsPending := true }
    else
      .error (Errorf Codes.Internal "Invalid key, and network does not allow no-key signups")
  else
    .ok node

/-- The reply of `CreateNode` (lines 131-152). -/
def createNodeRes (dnsMode : Bool) (node : Node) (network : Network) : CreateNodeRes :=
  { Node :=
    { Macaddress := node.MacAddress
      Localaddress := node.LocalAddress
      Name := node.Name
      Address := node.Address
      Address6 := node.Address6
      Endpoint := node.Endpoint
      Password := node.Password
      Interface := node.Interface
      Nodenetwork := node.Network
      Dnsoff := !dnsMode
      Ispending := node.IsPending
      Publickey := node.PublicKey
      Listenport := node.ListenPort
      Keepalive := node.PersistentKeepalive
      Islocal := network.IsLocal == "yes"
      Isdualstack := network.IsDualStack == "yes"
      Localrange := network.LocalRange
      Udpholepunch := node.UDPHolePunch } }

/-- The handler `NodeServiceServer.CreateNode` (lines 68-159). -/
def CreateNode {σ : Type} (env : Collab σ) (req : CreateNodeReq) (s : σ) :
    Outcome σ CreateNodeRes :=
  let node := createNodeOfReq req
  match env.validate node false s with
  | some err => ⟨.error (.passthrough err), s, []⟩
  | none =>
    let validKey := env.isKeyValid node.Network node.AccessKey s
    match env.getParentNetwork node.Network s with
    | (_, some err) =>
      ⟨.error (Errorf Codes.NotFound ("Could not find network: " ++ err)), s, []⟩
    | (network, none) =>
      match admission validKey network node with
      | .error e => ⟨.error e, s, []⟩
      | .ok node1 =>
        match env.createNode node1 node1.Network s with
        | (.error err, s1) =>
          ⟨.error (Errorf Codes.Internal ("Internal error: " ++ err)), s1,
            [Call.createNode node1 node1.Network]⟩
        | (.ok node2, s1) =>
          let response := createNodeRes env.isDNSMode node2 network
          match env.setNetworkNodesLastModified node2.Network s1 with
          | (some err, s2) =>
            ⟨.error (Errorf Codes.NotFound
                ("Could not update network last modified date: " ++ err)), s2,
              [Call.createNode node1 node1.Network,
               Call.setNetworkNodesLastModified node2.Network]⟩
          | (none, s2) =>
            ⟨.ok response, s2,
              [Call.createNode node1 node1.Network,
               Call.setNetworkNodesLastModified node2.Network]⟩

/-- The request `nodepb.CheckInReq`; `Node` may be nil. -/
structure CheckInReq where
  Node : Option PbNode := none
  deriving DecidableEq, Repr

/-- The reply `nodepb.CheckInRes`. -/
structure CheckInRes where
  Checkinresponse : PbCheckInResponse
  deriving DecidableEq, Repr

/-- The domain node `CheckIn` builds from the request (lines 164-180). -/
def checkInNodeOfReq (req : CheckInReq) : Node :=
  let data := req.Node.getD {}
  { MacAddress := data.Macaddress
    Address := data.Address
    Address6 := data.Address6
    Endpoint := data.Endpoint
    Network := data.Nodenetwork
    Password := data.Password
    LocalAddress := data.Localaddress
    ListenPort := data.Listenport
    PersistentKeepalive := data.Keepalive
    PublicKey := data.Publickey
    UDPHolePunch := data.Udpholepunch }

/-- The reply of `CheckIn` (lines 194-204). -/
def checkInRes (r : CheckInResponse) : CheckInRes :=
  { Checkinresponse :=
    { Success := r.Success
      Needpeerupdate := r.NeedPeerUpdate
      Needdelete := r.NeedDelete
      Needconfigupdate := r.NeedConfigUpdate
      Needkeyupdate := r.NeedKeyUpdate
      Nodemessage := r.NodeMessage
      Ispending := r.IsPending } }

/-- The test of line 186, under `err != nil`: the verdict is the zero value,
or it is not pending. -/
def checkInIsHardError (checkinresponse : CheckInResponse) : Bool :=
  checkinresponse == ({} : CheckInResponse) || !checkinresponse.IsPending

/-- The handler `NodeServiceServer.CheckIn` (lines 161-206). -/
def CheckIn {σ : Type} (env : Collab σ) (req : CheckInReq) (s : σ) :
    Outcome σ CheckInRes :=
  let node := checkInNodeOfReq req
  match env.nodeCheckIn node node.Network s with
  | ((checkinresponse, some err), s1) =>
    if checkInIsHardError checkinresponse then
      ⟨.error (Errorf Codes.Internal ("Internal error: " ++ err)), s1,
        [Call.nodeCheckIn node node.Network]⟩
    else
      ⟨.ok (checkInRes checkinresponse), s1, [Call.nodeCheckIn node node.Network]⟩
  | ((checkinresponse, none), s1) =>
    ⟨.ok (checkInRes checkinresponse), s1, [Call.nodeCheckIn node node.Network]⟩

/-- The request `nodepb.ReadNodeReq`. -/
structure ReadNodeReq where
  Macaddress : String := ""
  Network : String := ""
  deriving DecidableEq, Repr

/-- The reply `nodepb.ReadNodeRes`. -/
structure ReadNodeRes where
  Node : PbNode
  deriving DecidableEq, Repr

/-- The reply of `ReadNode` (lines 38-64). -/
def readNodeRes (dnsMode : Bool) (node : Node) (network : Network) : ReadNodeRes :=
  { Node :=
    { Macaddress := node.MacAddress
      Name := node.Name
      Address := node.Address
      Address6 := node.Address6
      Endpoint := node.Endpoint
      Password := node.Password
      Nodenetwork := node.Network
      Interface := node.Interface
      Localaddress := node.LocalAddress
      Postdown := node.PostDown
      Postup := node.PostUp
      Checkininterval := node.CheckInInterval
      Dnsoff := !dnsMode
      Ispending := node.IsPending
      Isingressgateway := node.IsIngressGateway
      Ingressgatewayrange := node.IngressGatewayRange
      Publickey := node.PublicKey
      Listenport := node.ListenPort
      Keepalive := node.PersistentKeepalive
      Islocal := network.IsLocal == "yes"
      Isdualstack := network.IsDualStack == "yes"
      Localrange := network.LocalRange
      Udpholepunch := node.UDPHolePunch } }

/-- The handler `NodeServiceServer.ReadNode` (lines 19-66). -/
def ReadNode {σ : Type} (env : Collab σ) (req : ReadNodeReq) (s : σ) :
    Outcome σ ReadNodeRes :=
  let macaddress := req.Macaddress
  let networkName := req.Network
  let network := (env.getParentNetwork networkName s).1
  match env.getNode macaddress networkName s with
  | .error err =>
    ⟨.error (Errorf Codes.InvalidArgument ("Something went wrong: " ++ err)), s, []⟩
  | .ok node => ⟨.ok (readNodeRes env.isDNSMode node network), s, []⟩

/-- The request `nodepb.UpdateNodeReq`; `Node` may be nil. -/
structure UpdateNodeReq where
  Node : Option PbNode := none
  deriving DecidableEq, Repr

/-- The reply `nodepb.UpdateNodeRes`. -/
structure UpdateNodeRes where
  Node : PbNode
  deriving DecidableEq, Repr

/-- The domain node `UpdateNode` builds from the request (lines 210-230). -/
def updateNodeOfReq (req : UpdateNodeReq) : Node :=
  let data := req.Node.getD {}
  { MacAddress := data.Macaddress
    Name := data.Name
    Address := data.Address
    Address6 := data.Address6
    LocalAddress := data.Localaddress
    Endpoint := data.Endpoint
    Password := data.Password
    PersistentKeepalive := data.Keepalive
    Network := data.Nodenetwork
    Interface := data.Interface
    PostDown := data.Postdown
    PostUp := data.Postup
    IsPending := data.Ispending
    PublicKey := data.Publickey
    ListenPort := data.Listenport
    UDPHolePunch := data.Udpholepunch }

/-- The reply of `UpdateNode` (lines 258-281). -/
def updateNodeRes (dnsMode : Bool) (newnode : Node) (network : Network) : UpdateNodeRes :=
  { Node :=
    { Macaddress := newnode.MacAddress
      Localaddress := newnode.LocalAddress
      Name := newnode.Name
      Address := newnode.Address
      Address6 := newnode.Address6
      Endpoint := newnode.Endpoint
      Password := newnode.Password
      Interface := newnode.Interface
      Postdown := newnode.PostDown
      Postup := newnode.PostUp
      Nodenetwork := newnode.Network
      Ispending := newnode.IsPending
      Publickey := newnode.PublicKey
      Dnsoff := !dnsMode
      Listenport := newnode.ListenPort
      Keepalive := newnode.PersistentKeepalive
      Islocal := network.IsLocal == "yes"
      Isdualstack := network.IsDualStack == "yes"
      Localrange := network.LocalRange
      Udpholepunch := newnode.UDPHolePunch } }

/-- The handler `NodeServiceServer.UpdateNode` (lines 208-282). -/
def UpdateNode {σ : Type} (env : Collab σ) (req : UpdateNodeReq) (s : σ) :
    Outcome σ UpdateNodeRes :=
  let newnode := updateNodeOfReq req
  let macaddress := newnode.MacAddress
  let networkName := newnode.Network
  let network := (env.getParentNetwork networkName s).1
  match env.validate newnode true s with
  | some err => ⟨.error (.passthrough err), s, []⟩
  | none =>
    match env.getNodeByMacAddress networkName macaddress s with
    | .error err =>
      ⟨.error (Errorf Codes.NotFound
          ("Could not find node with supplied Mac Address: " ++ err)), s, []⟩
    | .ok node =>
      match env.nodeUpdate node newnode s with
      | ((some err, _), s1) =>
        ⟨.error (Errorf Codes.NotFound
            ("Could not find node with supplied Mac Address: " ++ err)), s1,
          [Call.nodeUpdate node newnode]⟩
      | ((none, newnode1), s1) =>
        ⟨.ok (updateNodeRes env.isDNSMode newnode1 network), s1,
          [Call.nodeUpdate node newnode]⟩

/-- The request `nodepb.DeleteNodeReq`. -/
structure DeleteNodeReq where
  Macaddress : String := ""
  NetworkName : String := ""
  deriving DecidableEq, Repr

/-- The reply `nodepb.DeleteNodeRes`. -/
structure DeleteNodeRes where
  Success : Bool := false
  deriving DecidableEq, Repr

/-- The handler `NodeServiceServer.DeleteNode` (lines 284-307). -/
def DeleteNode {σ : Type} (env : Collab σ) (req : DeleteNodeReq) (s : σ) :
    Outcome σ DeleteNodeRes :=
  let macaddress := req.Macaddress
  let network := req.NetworkName
  match env.deleteNode macaddress network s with
  | (some _, s1) =>
    ⟨.error (Errorf Codes.NotFound
        ("Could not find/delete node with mac address " ++ macaddress)), s1,
      [Call.deleteNode macaddress network]⟩
  | (none, s1) =>
    match env.setNetworkNodesLastModified req.NetworkName s1 with
    | (some err, s2) =>
      ⟨.error (Errorf Codes.NotFound
          ("Could not update network last modified date: " ++ err)), s2,
        [Call.deleteNode macaddress network,
         Call.setNetworkNodesLastModified req.NetworkName]⟩
    | (none, s2) =>
      ⟨.ok { Success := true }, s2,
        [Call.deleteNode macaddress network,
         Call.setNetworkNodesLastModified req.NetworkName]⟩

/-- The request `nodepb.GetPeersReq`. -/
structure GetPeersReq where
  Macaddress : String := ""
  Network : String := ""
  deriving DecidableEq, Repr

/-- The message `GetPeers` sends for one peer (lines 322-334). -/
def pbPeer (p : PeersResponse) : PbPeersResponse :=
  { Address := p.Address
    Address6 := p.Address6
    Endpoint := p.Endpoint
    Egressgatewayrange := p.EgressGatewayRange
    Isegressgateway := p.IsEgressGateway
    Publickey := p.PublicKey
    Keepalive := p.KeepAlive
    Listenport := p.ListenPort
    Localaddress := p.LocalAddress }

/-- The send loop of `GetPeers` (lines 319-335): one `stream.Send` per peer,
in list order; what a send returns is dropped and the loop goes on. -/
def sendPeers {σ : Type} (env : Collab σ) : List PeersResponse → σ → σ × List Call
  | [], s => (s, [])
  | p :: ps, s =>
    let r := env.sendPeer (pbPeer p) s
    let rest := sendPeers env ps r.2
    (rest.1, Call.sendPeer (pbPeer p) r.1 :: rest.2)

/-- The handler `NodeServiceServer.GetPeers` (lines 309-348).  A streaming
handler returns only an error; `Unit` is the nil error. -/
def GetPeers {σ : Type} (env : Collab σ) (req : GetPeersReq) (s : σ) : Outcome σ Unit :=
  match env.getPeersList req.Network s with
  | .error err =>
    ⟨.error (Errorf Codes.Internal ("Unknown internal error: " ++ err)), s, []⟩
  | .ok peers =>
    let sent := sendPeers env peers s
    match env.getNodeByMacAddress req.Network req.Macaddress sent.1 with
    | .error err =>
      ⟨.error (Errorf Codes.Internal ("Could not get node: " ++ err)), sent.1, sent.2⟩
    | .ok node =>
      match env.timestampNode node false true false sent.1 with
      | (some err, s2) =>
        ⟨.error (Errorf Codes.Internal ("Internal error occurred: " ++ err)), s2,
          sent.2 ++ [Call.timestampNode node false true false]⟩
      | (none, s2) => ⟨.ok (), s2, sent.2 ++ [Call.timestampNode node false true false]⟩

/-- The request `nodepb.GetExtPeersReq`. -/
structure GetExtPeersReq where
  Macaddress : String := ""
  Network : String := ""
  deriving DecidableEq, Repr

/-- The message `GetExtPeers` sends for one peer (lines 363-373). -/
def pbExtPeer (p : ExtPeersResponse) : PbExtPeersResponse :=
  { Address := p.Address
    Address6 := p.Address6
    Endpoint := p.Endpoint
    Publickey := p.PublicKey
    Keepalive := p.KeepAlive
    Listenport := p.ListenPort
    Localaddress := p.LocalAddress }

/-- The send loop of `GetExtPeers` (lines 360-374): one `stream.Send` per
peer, in list order; what a send returns is dropped and the loop goes on. -/
def sendExtPeers {σ : Type} (env : Collab σ) : List ExtPeersResponse → σ → σ × List Call
  | [], s => (s, [])
  | p :: ps, s =>
    let r := env.sendExtPeer (pbExtPeer p) s
    let rest := sendExtPeers env ps r.2
    (rest.1, Call.sendExtPeer (pbExtPeer p) r.1 :: rest.2)

/-- The handler `NodeServiceServer.GetExtPeers` (lines 350-387). -/
def GetExtPeers {σ : Type} (env : Collab σ) (req : GetExtPeersReq) (s : σ) :
    Outcome σ Unit :=
  match env.getExtPeersList req.Network req.Macaddress s with
  | .error err =>
    ⟨.error (Errorf Codes.Internal ("Unknown internal error: " ++ err)), s, []⟩
  | .ok peers =>
    let sent := sendExtPeers env peers s
    match env.getNodeByMacAddress req.Network req.Macaddress sent.1 with
    | .error err =>
      ⟨.error (Errorf Codes.Internal ("Could not get node: " ++ err)), sent.1, sent.2⟩
    | .ok node =>
      match env.timestampNode node false true false sent.1 with
      | (some err, s2) =>
        ⟨.error (Errorf Codes.Internal ("Internal error occurred: " ++ err)), s2,
          sent.2 ++ [Call.timestampNode node false true false]⟩
      | (none, s2) => ⟨.ok (), s2, sent.2 ++ [Call.timestampNode node false true false]⟩

/-! ## Reading a run -/

/-- The status code of a failed run; `none` for a run that succeeded. -/
def Outcome.errorCode {σ α : Type} (o : Outcome σ α) : Option Codes :=
  match o.result with
  | .error e => some e.code
  | .ok _ => none

/-- Whether a call is a `TimestampNode` call. -/
def Call.isTimestampNode : Call → Bool
  | .timestampNode _ _ _ _ => true
  | _ => false

/-- Whether a call is a `SetNetworkNodesLastModified` call. -/
def Call.isVersionBump : Call → Bool
  | .setNetworkNodesLastModified _ => true
  | _ => false

/-- The messages handed to the `GetPeers` stream, in order. -/
def sentPeers : List Call → List PbPeersResponse
  | [] => []
  | .sendPeer msg _ :: cs => msg :: sentPeers cs
  | _ :: cs => sentPeers cs

/-- Whether some stream send in the run returned an error. -/
def someSendFailed : List Call → Bool
  | [] => false
  | .sendPeer _ (some _) :: _ => true
  | .sendExtPeer _ (some _) :: _ => true
  | _ :: cs => someSendFailed cs

/-! ## An in-memory instance of the collaborators

The handlers are proved correct for every instance of `Collab`.  To run them
on concrete requests a small in-memory instance is used: one network, its
access keys, its nodes, its topology version, the version each node last
synchronised against, and whether the outbound stream is still open. -/

/-- The in-memory store of the instance `memCollab`. -/
structure Store where
  networkName : String
  network : Network
  accessKeys : List String
  nodes : List Node
  extPeers : List ExtPeersResponse
  nodesLastModified : Nat
  lastPeerUpdate : List (String × Nat)
  streamOpen : Bool
  deriving DecidableEq, Repr

/-- Modelled from the spec: the peer descriptor of a node (section 3,
PeerDescriptor: the projection of a node's connectivity and tunnel identity).
The repository builds it inside `GetPeersList`, which is not in this file. -/
def peerOfNode (n : Node) : PeersResponse :=
  { Address := n.Address
    Address6 := n.Address6
    Endpoint := n.Endpoint
    PublicKey := n.PublicKey
    KeepAlive := n.PersistentKeepalive
    ListenPort := n.ListenPort
    LocalAddress := n.LocalAddress }

/-- The node of the store with the given hardware address and network. -/
def Store.findNode (s : Store) (macaddress network : String) : Option Node :=
  s.nodes.find? (fun n => n.MacAddress == macaddress && n.Network == network)

/-- The topology version a node last synchronised against (0 when never). -/
def Store.lastSynced (s : Store) (macaddress : String) : Nat :=
  match s.lastPeerUpdate.find? (fun e => e.1 == macaddress) with
  | some e => e.2
  | none => 0

/-- Modelled from the spec: the check-in reconciler `NodeCheckIn` (section
4.2), which is not in this file.  Step 1: no node with this hardware address
in the network gives the verdict `success = false, needDelete = true,
message = "unregistered"`.  Step 2: a pending node gives `success = false,
isPending = true, message = "awaiting approval"`.  Step 3: otherwise
`needConfigUpdate` compares the reported address, endpoint, listen port and
keepalive with the registered ones, `needKeyUpdate` compares the public keys,
and `needPeerUpdate` compares the version the node last synchronised against
with the version of the network.  The credential check behind `needDelete` and
the contact time of step 4 are not modelled.  `missingErr` is the error value
the reconciler reports next to the verdict of step 1; `none` when it reports
the missing node by the verdict alone. -/
def specNodeCheckIn (missingErr : Option String) (node : Node) (network : String)
    (s : Store) : (CheckInResponse × Option String) × Store :=
  match s.findNode node.MacAddress network with
  | none =>
    (({ Success := false, NeedDelete := true, NodeMessage := "unregistered" },
      missingErr), s)
  | some auth =>
    if auth.IsPending then
      (({ Success := false, IsPending := true, NodeMessage := "awaiting approval" },
        some "node is pending"), s)
    else
      (({ Success := true
          NeedPeerUpdate := decide (s.lastSynced node.MacAddress < s.nodesLastModified)
          NeedConfigUpdate :=
            auth.Address != node.Address || auth.Endpoint != node.Endpoint ||
            auth.ListenPort != node.ListenPort ||
            auth.PersistentKeepalive != node.PersistentKeepalive
          NeedKeyUpdate := auth.PublicKey != node.PublicKey }, none), s)

/-- Modelled from the spec: the collaborators of the controller (`functions`,
`models`, the store helpers and the stream are not in this file), as sections
3 and 4 describe them, over `Store`.  `GetPeersList` receives only the network
name, as in the handler.  `missingErr` is the error the reconciler reports
next to its verdict for a missing node. -/
def memCollabWith (missingErr : Option String) : Collab Store where
  isDNSMode := false
  validate := fun node _ _ =>
    if node.MacAddress == "" then some "macaddress is required" else none
  isKeyValid := fun network key s => network == s.networkName && s.accessKeys.contains key
  getParentNetwork := fun name s =>
    if name == s.networkName then (s.network, none) else ({}, some "network not found")
  getNode := fun macaddress network s =>
    match s.findNode macaddress network with
    | some n => .ok n
    | none => .error "node not found"
  getNodeByMacAddress := fun network macaddress s =>
    match s.findNode macaddress network with
    | some n => .ok n
    | none => .error "node not found"
  createNode := fun node _ s => (.ok node, { s with nodes := s.nodes ++ [node] })
  setNetworkNodesLastModified := fun network s =>
    if network == s.networkName then
      (none, { s with nodesLastModified := s.nodesLastModified + 1 })
    else (some "network not found", s)
  nodeCheckIn := specNodeCheckIn missingErr
  nodeUpdate := fun current newnode s =>
    ((none, newnode),
      { s with nodes := s.nodes.map (fun n =>
          if n.MacAddress == current.MacAddress && n.Network == current.Network
          then newnode else n) })
  deleteNode := fun macaddress network s =>
    match s.findNode macaddress network with
    | none => (some "node not found", s)
    | some _ =>
      (none, { s with nodes := s.nodes.filter (fun n =>
          !(n.MacAddress == macaddress && n.Network == network)) })
  getPeersList := fun network s =>
    .ok ((s.nodes.filter (fun n => n.Network == network && !n.IsPending)).map peerOfNode)
  getExtPeersList := fun _ _ s => .ok s.extPeers
  timestampNode := fun node _ updatepeers _ s =>
    (none,
      if updatepeers then
        { s with lastPeerUpdate := (node.MacAddress, s.nodesLastModified) :: s.lastPeerUpdate }
      else s)
  sendPeer := fun _ s => (if s.streamOpen then none else some "transport is closing", s)
  sendExtPeer := fun _ s => (if s.streamOpen then none else some "transport is closing", s)

/-- The instance `memCollabWith` whose reconciler reports a missing node
through the error `node not found` when `errOnMissing` is set, and through its
verdict alone otherwise. -/
def memCollab (errOnMissing : Bool) : Collab Store :=
  memCollabWith (if errOnMissing then some "node not found" else none)

/-- Node `AA:BB` of network `lab`. -/
def nodeA : Node :=
  { MacAddress := "AA:BB", Network := "lab", Address := "10.0.0.1", PublicKey := "pkA" }

/-- Node `CC:DD` of network `lab`. -/
def nodeB : Node :=
  { MacAddress := "CC:DD", Network := "lab", Address := "10.0.0.2", PublicKey := "pkB" }

/-- Network `lab` at version 3 with nodes `AA:BB` and `CC:DD`, one access key
`k1`, no manual sign-up; `AA:BB` last synchronised at version 2. -/
def labStore : Store :=
  { networkName := "lab"
    network := { AllowManualSignUp := "no" }
    accessKeys := ["k1"]
    nodes := [nodeA, nodeB]
    extPeers := [{ Address := "10.0.1.1", PublicKey := "pkX" }]
    nodesLastModified := 3
    lastPeerUpdate := [("AA:BB", 2)]
    streamOpen := true }

/-- The store `labStore` with manual sign-up allowed. -/
def labStoreManual : Store :=
  { labStore with network := { AllowManualSignUp := "yes" } }

/-- The store `labStore` with the outbound stream closed by the caller. -/
def labStoreCanceled : Store :=
  { labStore with streamOpen := false }

/-- A registration of `EE:FF` in `lab` with the given key and pending flag. -/
def registerReq (key : String) (pending : Bool) : CreateNodeReq :=
  { Node := some { Macaddress := "EE:FF", Nodenetwork := "lab", Accesskey := key,
                   Publickey := "pkE", Ispending := pending } }

/-- The node of a registration request, flagged pending: what line 111 makes
of the node built from the request. -/
def pendingNodeOfReq (req : CreateNodeReq) : Node :=
  { createNodeOfReq req with IsPending := true }

/-- The verdict the reconciler returns to `CheckIn` (line 182). -/
def reconcilerVerdict {σ : Type} (env : Collab σ) (req : CheckInReq) (s : σ) :
    CheckInResponse :=
  (env.nodeCheckIn (checkInNodeOfReq req) (checkInNodeOfReq req).Network s).1.1

/-- The error the reconciler returns to `CheckIn` (line 182). -/
def reconcilerErr {σ : Type} (env : Collab σ) (req : CheckInReq) (s : σ) :
    Option String :=
  (env.nodeCheckIn (checkInNodeOfReq req) (checkInNodeOfReq req).Network s).1.2

/-- A check-in of the given hardware address in `lab`. -/
def checkInReq (macaddress : String) : CheckInReq :=
  { Node := some { Macaddress := macaddress, Nodenetwork := "lab" } }

/-- An update of `AA:BB` in `lab` that rotates its public key to `pkA2`. -/
def rotateKeyReq : UpdateNodeReq :=
  { Node := some { Macaddress := "AA:BB", Nodenetwork := "lab", Address := "10.0.0.1",
                   Publickey := "pkA2" } }

/-- A peer fetch by `AA:BB` in `lab`. -/
def peersReq : GetPeersReq :=
  { Macaddress := "AA:BB", Network := "lab" }

/-- An external peer fetch by `AA:BB` in `lab`. -/
def extPeersReq : GetExtPeersReq :=
  { Macaddress := "AA:BB", Network := "lab" }

/-! ## Status messages -/

theorem Errorf_code (c : Codes) (format : String) : (Errorf c format).code = c := by
  unfold Errorf
  split <;> rfl

theorem Errorf_invalid_key :
    Errorf Codes.Internal "Invalid key, and network does not allow no-key signups" =
      .status Codes.Internal "Invalid key, and network does not allow no-key signups" := by
  decide

/-! ## Registration -/

/-- C1, as amended: a registration whose node passes validation, whose network
exists, whose key is not valid and whose network does not allow manual sign-up
fails with the status code `Internal` and the message of line 115. -/
theorem CreateNode_invalid_key_refused {σ : Type} (env : Collab σ) (req : CreateNodeReq)
    (s : σ)
    (hval : env.validate (createNodeOfReq req) false s = none)
    (hnet : (env.getParentNetwork (createNodeOfReq req).Network s).2 = none)
    (hkey : env.isKeyValid (createNodeOfReq req).Network (createNodeOfReq req).AccessKey s
      = false)
    (hman : (env.getParentNetwork (createNodeOfReq req).Network s).1.AllowManualSignUp
      ≠ "yes") :
    (CreateNode env req s).result =
      .error (.status Codes.Internal
        "Invalid key, and network does not allow no-key signups") ∧
    (CreateNode env req s).errorCode = some Codes.Internal := by
  rcases hp : env.getParentNetwork (createNodeOfReq req).Network s with ⟨nw, e⟩
  rw [hp] at hnet hman
  simp only at hnet hman
  subst hnet
  simp [CreateNode, Outcome.errorCode, RpcError.code, hval, hp, hkey, admission, hman,
    Errorf_invalid_key]

/-- Witness of `CreateNode_invalid_key_refused`: `EE:FF` registers in `lab`
with a key that is not among the keys of `lab`, manual sign-up not allowed. -/
theorem CreateNode_invalid_key_refused_witness :
    (CreateNode (memCollab false) (registerReq "bad" false) labStore).result =
      .error (.status Codes.Internal
        "Invalid key, and network does not allow no-key signups") ∧
    (CreateNode (memCollab false) (registerReq "bad" false) labStore).errorCode =
      some Codes.Internal :=
  CreateNode_invalid_key_refused (memCollab false) (registerReq "bad" false) labStore
    (by decide) (by decide) (by decide) (by decide)

/-- C1, as stated, fails: `EE:FF` registers in `lab` with an invalid key,
manual sign-up not allowed, the node valid and the network found; the error
kind is not `PermissionDenied` (it is `Internal`). -/
theorem CreateNode_invalid_key_not_PermissionDenied :
    (memCollab false).validate (createNodeOfReq (registerReq "bad" false)) false labStore
      = none ∧
    ((memCollab false).getParentNetwork
      (createNodeOfReq (registerReq "bad" false)).Network labStore).2 = none ∧
    (memCollab false).isKeyValid (createNodeOfReq (registerReq "bad" false)).Network
      (createNodeOfReq (registerReq "bad" false)).AccessKey labStore = false ∧
    ((memCollab false).getParentNetwork
      (createNodeOfReq (registerReq "bad" false)).Network labStore).1.AllowManualSignUp
      ≠ "yes" ∧
    (CreateNode (memCollab false) (registerReq "bad" false) labStore).errorCode
      ≠ some Codes.PermissionDenied := by
  decide

/-- C2: a registration with a key that is not valid, on a network that does not
allow manual sign-up, issues no writer call at all (no node insert, no
version bump), leaves the store as it was, and fails. -/
theorem CreateNode_refused_creates_nothing {σ : Type} (env : Collab σ)
    (req : CreateNodeReq) (s : σ)
    (hkey : env.isKeyValid (createNodeOfReq req).Network (createNodeOfReq req).AccessKey s
      = false)
    (hman : (env.getParentNetwork (createNodeOfReq req).Network s).1.AllowManualSignUp
      ≠ "yes") :
    (CreateNode env req s).calls = [] ∧ (CreateNode env req s).state = s ∧
    (CreateNode env req s).failed = true := by
  rcases hp : env.getParentNetwork (createNodeOfReq req).Network s with ⟨nw, e⟩
  rw [hp] at hman
  simp only at hman
  cases hv : env.validate (createNodeOfReq req) false s <;>
    cases e <;>
    simp [CreateNode, Outcome.failed, hv, hp, hkey, admission, hman]

/-- Witness of `CreateNode_refused_creates_nothing` on the store `labStore`. -/
theorem CreateNode_refused_creates_nothing_witness :
    (CreateNode (memCollab false) (registerReq "bad" false) labStore).calls = [] ∧
    (CreateNode (memCollab false) (registerReq "bad" false) labStore).state = labStore ∧
    (CreateNode (memCollab false) (registerReq "bad" false) labStore).failed = true :=
  CreateNode_refused_creates_nothing (memCollab false) (registerReq "bad" false) labStore
    (by decide) (by decide)

/-- C3: a registration whose node passes validation, whose network exists and
allows manual sign-up, and whose key is not valid hands the store insert the
node of the request flagged pending, whatever flag the client sent; and when
the insert succeeds, returns a node with the flag it was handed, and the
version bump succeeds, the registration succeeds with `Ispending = true`. -/
theorem CreateNode_manual_signup_pending {σ : Type} (env : Collab σ)
    (req : CreateNodeReq) (s : σ)
    (hval : env.validate (createNodeOfReq req) false s = none)
    (hnet : (env.getParentNetwork (createNodeOfReq req).Network s).2 = none)
    (hkey : env.isKeyValid (createNodeOfReq req).Network (createNodeOfReq req).AccessKey s
      = false)
    (hman : (env.getParentNetwork (createNodeOfReq req).Network s).1.AllowManualSignUp
      = "yes") :
    (CreateNode env req s).calls.head? =
      some (Call.createNode (pendingNodeOfReq req) (pendingNodeOfReq req).Network) ∧
    (pendingNodeOfReq req).IsPending = true ∧
    (∀ n net, Call.createNode n net ∈ (CreateNode env req s).calls → n.IsPending = true) ∧
    (∀ stored s1,
      env.createNode (pendingNodeOfReq req) (pendingNodeOfReq req).Network s
        = (.ok stored, s1) →
      stored.IsPending = (pendingNodeOfReq req).IsPending →
      (env.setNetworkNodesLastModified stored.Network s1).1 = none →
      ∃ res, (CreateNode env req s).result = .ok res ∧ res.Node.Ispending = true) := by
  rcases hp : env.getParentNetwork (createNodeOfReq req).Network s with ⟨nw, e⟩
  rw [hp] at hnet hman
  simp only at hnet hman
  subst hnet
  have hadm : admission false nw (createNodeOfReq req) = .ok (pendingNodeOfReq req) := by
    simp [admission, pendingNodeOfReq, hman]
  refine ⟨?_, rfl, ?_, ?_⟩
  · rcases hc : env.createNode (pendingNodeOfReq req) (pendingNodeOfReq req).Network s
      with ⟨r, s1⟩
    cases r with
    | error err => simp [CreateNode, hval, hp, hkey, hadm, hc]
    | ok stored =>
      rcases hb : env.setNetworkNodesLastModified stored.Network s1 with ⟨b, s2⟩
      cases b <;> simp [CreateNode, hval, hp, hkey, hadm, hc, hb]
  · intro n net hmem
    rcases hc : env.createNode (pendingNodeOfReq req) (pendingNodeOfReq req).Network s
      with ⟨r, s1⟩
    cases r with
    | error err =>
      simp [CreateNode, hval, hp, hkey, hadm, hc] at hmem
      rw [hmem.1]; rfl
    | ok stored =>
      rcases hb : env.setNetworkNodesLastModified stored.Network s1 with ⟨b, s2⟩
      cases b <;> simp [CreateNode, hval, hp, hkey, hadm, hc, hb] at hmem <;>
        (rw [hmem.1]; rfl)
  · intro stored s1 hc hkeep hb
    rcases hb2 : env.setNetworkNodesLastModified stored.Network s1 with ⟨b, s2⟩
    rw [hb2] at hb
    simp only at hb
    subst hb
    refine ⟨createNodeRes env.isDNSMode stored nw, ?_, ?_⟩
    · simp [CreateNode, hval, hp, hkey, hadm, hc, hb2]
    · simpa [createNodeRes] using hkeep

/-- Witness of `CreateNode_manual_signup_pending`: `EE:FF` registers in `lab`
with an invalid key and the pending flag unset, manual sign-up allowed; the
registration succeeds and the reply is flagged pending. -/
theorem CreateNode_manual_signup_pending_witness :
    ∃ res, (CreateNode (memCollab false) (registerReq "bad" false) labStoreManual).result
      = .ok res ∧ res.Node.Ispending = true :=
  (CreateNode_manual_signup_pending (memCollab false) (registerReq "bad" false)
    labStoreManual (by decide) (by decide) (by decide) (by decide)).2.2.2
    (pendingNodeOfReq (registerReq "bad" false))
    { labStoreManual with
      nodes := labStoreManual.nodes ++ [pendingNodeOfReq (registerReq "bad" false)] }
    rfl rfl (by decide)

/-- C4, as amended: a registration whose node passes validation, whose network
exists and whose key is valid hands the store insert the node built from the
request unchanged, so the pending flag of that node is the flag the client
sent: false when the client sent false, true when the client sent true. -/
theorem CreateNode_valid_key_keeps_flag {σ : Type} (env : Collab σ)
    (req : CreateNodeReq) (s : σ)
    (hval : env.validate (createNodeOfReq req) false s = none)
    (hnet : (env.getParentNetwork (createNodeOfReq req).Network s).2 = none)
    (hkey : env.isKeyValid (createNodeOfReq req).Network (createNodeOfReq req).AccessKey s
      = true) :
    (CreateNode env req s).calls.head? =
      some (Call.createNode (createNodeOfReq req) (createNodeOfReq req).Network) ∧
    (∀ n net, Call.createNode n net ∈ (CreateNode env req s).calls →
      n.IsPending = (req.Node.getD {}).Ispending) := by
  rcases hp : env.getParentNetwork (createNodeOfReq req).Network s with ⟨nw, e⟩
  rw [hp] at hnet
  simp only at hnet
  subst hnet
  have hadm : admission true nw (createNodeOfReq req) = .ok (createNodeOfReq req) := by
    simp [admission]
  rcases hc : env.createNode (createNodeOfReq req) (createNodeOfReq req).Network s
    with ⟨r, s1⟩
  cases r with
  | error err =>
    refine ⟨by simp [CreateNode, hval, hp, hkey, hadm, hc], ?_⟩
    intro n net hmem
    simp [CreateNode, hval, hp, hkey, hadm, hc] at hmem
    rw [hmem.1]; rfl
  | ok stored =>
    rcases hb : env.setNetworkNodesLastModified stored.Network s1 with ⟨b, s2⟩
    cases b <;>
      refine ⟨by simp [CreateNode, hval, hp, hkey, hadm, hc, hb], ?_⟩ <;>
      intro n net hmem <;>
      simp [CreateNode, hval, hp, hkey, hadm, hc, hb] at hmem <;>
      (rw [hmem.1]; rfl)

/-- Witness of `CreateNode_valid_key_keeps_flag`: `EE:FF` registers in `lab`
with the key `k1` and the pending flag unset. -/
theorem CreateNode_valid_key_keeps_flag_witness :
    (CreateNode (memCollab false) (registerReq "k1" false) labStore).calls.head? =
      some (Call.createNode (createNodeOfReq (registerReq "k1" false))
        (createNodeOfReq (registerReq "k1" false)).Network) ∧
    (createNodeOfReq (registerReq "k1" false)).IsPending = false :=
  ⟨(CreateNode_valid_key_keeps_flag (memCollab false) (registerReq "k1" false) labStore
    (by decide) (by decide) (by decide)).1, by decide⟩

/-- C4, as stated, fails: `EE:FF` registers in `lab` with the valid key `k1`
and the pending flag set; the node handed to the store insert is pending. -/
theorem CreateNode_valid_key_pending_handed :
    (memCollab false).validate (createNodeOfReq (registerReq "k1" true)) false labStore
      = none ∧
    ((memCollab false).getParentNetwork
      (createNodeOfReq (registerReq "k1" true)).Network labStore).2 = none ∧
    (memCollab false).isKeyValid (createNodeOfReq (registerReq "k1" true)).Network
      (createNodeOfReq (registerReq "k1" true)).AccessKey labStore = true ∧
    ¬ (∀ n net, Call.createNode n net ∈
        (CreateNode (memCollab false) (registerReq "k1" true) labStore).calls →
      n.IsPending = false) := by
  refine ⟨by decide, by decide, by decide, ?_⟩
  intro h
  have h1 := h (createNodeOfReq (registerReq "k1" true)) "lab" (by decide)
  exact absurd h1 (by decide)

/-! ## Check-in -/

/-- The test of line 186 holds exactly when the verdict is not pending: the
zero verdict is not pending. -/
theorem checkInIsHardError_eq (v : CheckInResponse) :
    checkInIsHardError v = !v.IsPending := by
  unfold checkInIsHardError
  cases hv : v.IsPending
  · simp
  · have hne : v ≠ ({} : CheckInResponse) := by
      intro heq
      rw [heq] at hv
      exact absurd hv (by decide)
    simp [hne]

/-- C5: `CheckIn` fails exactly when the reconciler returned an error next to
a verdict that is not pending, and then with the code `Internal`; a pending
verdict is never turned into a failure; an error next to the zero verdict is
a failure; and a run that does not fail returns the verdict of the reconciler
field by field. -/
theorem CheckIn_hard_error_iff {σ : Type} (env : Collab σ) (req : CheckInReq) (s : σ) :
    ((CheckIn env req s).failed = true ↔
      (reconcilerErr env req s ≠ none ∧ (reconcilerVerdict env req s).IsPending = false)) ∧
    ((CheckIn env req s).failed = true →
      (CheckIn env req s).errorCode = some Codes.Internal) ∧
    ((reconcilerVerdict env req s).IsPending = true → (CheckIn env req s).failed = false) ∧
    (reconcilerErr env req s ≠ none → reconcilerVerdict env req s = {} →
      (CheckIn env req s).failed = true) ∧
    ((CheckIn env req s).failed = false →
      ∃ res, (CheckIn env req s).result = .ok res ∧
        res.Checkinresponse.Success = (reconcilerVerdict env req s).Success ∧
        res.Checkinresponse.Needpeerupdate = (reconcilerVerdict env req s).NeedPeerUpdate ∧
        res.Checkinresponse.Needconfigupdate
          = (reconcilerVerdict env req s).NeedConfigUpdate ∧
        res.Checkinresponse.Needkeyupdate = (reconcilerVerdict env req s).NeedKeyUpdate ∧
        res.Checkinresponse.Needdelete = (reconcilerVerdict env req s).NeedDelete ∧
        res.Checkinresponse.Ispending = (reconcilerVerdict env req s).IsPending ∧
        res.Checkinresponse.Nodemessage = (reconcilerVerdict env req s).NodeMessage) := by
  unfold reconcilerErr reconcilerVerdict
  rcases hr : env.nodeCheckIn (checkInNodeOfReq req) (checkInNodeOfReq req).Network s
    with ⟨⟨v, e⟩, s1⟩
  cases e with
  | none =>
    simp [CheckIn, hr, Outcome.failed, Outcome.errorCode, checkInRes]
  | some err =>
    cases hv : v.IsPending
    · have hz : checkInIsHardError v = true := by rw [checkInIsHardError_eq, hv]; rfl
      simp [CheckIn, hr, Outcome.failed, Outcome.errorCode, Errorf_code, hz, hv]
    · have hz : checkInIsHardError v = false := by rw [checkInIsHardError_eq, hv]; rfl
      have hne : v ≠ ({} : CheckInResponse) := by
        intro heq
        rw [heq] at hv
        exact absurd hv (by decide)
      simp [CheckIn, hr, Outcome.failed, Outcome.errorCode, hz, hv, hne, checkInRes]

/-- C6, as amended: for every check-in by a hardware address that is not
registered in the network, `CheckIn` returns the verdict of the reconciler,
with `Success = false` and `Needdelete = true`, and no transport error when
the reconciler reports the missing node by its verdict alone; when the
reconciler also reports it through an error value, `CheckIn` fails with the
code `Internal` and hands `status.Errorf` the text `Internal error: ` followed
by that error. -/
theorem CheckIn_unregistered_soft_unless_error (s : Store) (req : CheckInReq)
    (hmiss : s.findNode (checkInNodeOfReq req).MacAddress (checkInNodeOfReq req).Network
      = none) :
    (∃ res, (CheckIn (memCollabWith none) req s).result = .ok res ∧
      res.Checkinresponse.Success = false ∧ res.Checkinresponse.Needdelete = true) ∧
    (∀ e, (CheckIn (memCollabWith (some e)) req s).result =
        .error (Errorf Codes.Internal ("Internal error: " ++ e)) ∧
      (CheckIn (memCollabWith (some e)) req s).errorCode = some Codes.Internal) := by
  constructor
  · refine ⟨checkInRes { Success := false, NeedDelete := true, NodeMessage := "unregistered" },
      ?_, rfl, rfl⟩
    simp [CheckIn, memCollabWith, specNodeCheckIn, hmiss]
  · intro e
    have hz : checkInIsHardError
        { Success := false, NeedDelete := true, NodeMessage := "unregistered" } = true := by
      decide
    simp [CheckIn, memCollabWith, specNodeCheckIn, hmiss, hz, Outcome.errorCode, Errorf_code]

/-- Witness of `CheckIn_unregistered_soft_unless_error`: `11:22`, which is not
a node of `lab`, checks in. -/
theorem CheckIn_unregistered_soft_unless_error_witness :
    (∃ res, (CheckIn (memCollabWith none) (checkInReq "11:22") labStore).result = .ok res ∧
      res.Checkinresponse.Success = false ∧ res.Checkinresponse.Needdelete = true) ∧
    (CheckIn (memCollabWith (some "node 100% gone")) (checkInReq "11:22") labStore).result =
      .error (Errorf Codes.Internal ("Internal error: " ++ "node 100% gone")) :=
  ⟨(CheckIn_unregistered_soft_unless_error labStore (checkInReq "11:22") (by decide)).1,
   ((CheckIn_unregistered_soft_unless_error labStore (checkInReq "11:22") (by decide)).2
      "node 100% gone").1⟩

/-- C6, as stated, fails: `11:22` is not a node of `lab`, the reconciler
answers with `Success = false`, `NeedDelete = true` and reports the missing
node through an error as well; `CheckIn` fails with the code `Internal`. -/
theorem CheckIn_unregistered_with_error_fails :
    labStore.findNode "11:22" "lab" = none ∧
    (reconcilerVerdict (memCollab true) (checkInReq "11:22") labStore).Success = false ∧
    (reconcilerVerdict (memCollab true) (checkInReq "11:22") labStore).NeedDelete = true ∧
    reconcilerErr (memCollab true) (checkInReq "11:22") labStore = some "node not found" ∧
    (CheckIn (memCollab true) (checkInReq "11:22") labStore).result =
      .error (.status Codes.Internal "Internal error: node not found") := by
  refine ⟨by decide, by decide, by decide, by decide, ?_⟩
  rfl

/-! ## Peer streams -/

theorem sentPeers_append (l1 l2 : List Call) :
    sentPeers (l1 ++ l2) = sentPeers l1 ++ sentPeers l2 := by
  induction l1 with
  | nil => rfl
  | cons c cs ih => cases c <;> simp [sentPeers, ih]

theorem sentPeers_sendPeers {σ : Type} (env : Collab σ) (peers : List PeersResponse)
    (s : σ) : sentPeers (sendPeers env peers s).2 = peers.map pbPeer := by
  induction peers generalizing s with
  | nil => rfl
  | cons p ps ih => simp [sendPeers, sentPeers, ih]

theorem sendPeers_no_timestamp {σ : Type} (env : Collab σ) (peers : List PeersResponse)
    (s : σ) : (sendPeers env peers s).2.filter Call.isTimestampNode = [] := by
  induction peers generalizing s with
  | nil => rfl
  | cons p ps ih => simp [sendPeers, Call.isTimestampNode, ih]

theorem sendExtPeers_no_timestamp {σ : Type} (env : Collab σ)
    (peers : List ExtPeersResponse) (s : σ) :
    (sendExtPeers env peers s).2.filter Call.isTimestampNode = [] := by
  induction peers generalizing s with
  | nil => rfl
  | cons p ps ih => simp [sendExtPeers, Call.isTimestampNode, ih]

/-- C7, as amended: a peer fetch whose peer-list lookup succeeds and whose
node lookup after the send loop succeeds issues `TimestampNode(node, false,
true, false)` exactly once and ends in the store state that call returns,
whatever the stream sends returned; this holds for `GetPeers` and for
`GetExtPeers`. -/
theorem peer_fetch_timestamps_after_sends {σ : Type} (env : Collab σ) (s : σ) :
    (∀ (req : GetPeersReq) (peers : List PeersResponse) (node : Node),
      env.getPeersList req.Network s = .ok peers →
      env.getNodeByMacAddress req.Network req.Macaddress (sendPeers env peers s).1
        = .ok node →
      (GetPeers env req s).calls.filter Call.isTimestampNode
        = [Call.timestampNode node false true false] ∧
      (GetPeers env req s).state
        = (env.timestampNode node false true false (sendPeers env peers s).1).2) ∧
    (∀ (req : GetExtPeersReq) (peers : List ExtPeersResponse) (node : Node),
      env.getExtPeersList req.Network req.Macaddress s = .ok peers →
      env.getNodeByMacAddress req.Network req.Macaddress (sendExtPeers env peers s).1
        = .ok node →
      (GetExtPeers env req s).calls.filter Call.isTimestampNode
        = [Call.timestampNode node false true false] ∧
      (GetExtPeers env req s).state
        = (env.timestampNode node false true false (sendExtPeers env peers s).1).2) := by
  constructor
  · intro req peers node hl hn
    rcases ht : env.timestampNode node false true false (sendPeers env peers s).1
      with ⟨e, s2⟩
    cases e <;>
      simp [GetPeers, hl, hn, ht, sendPeers_no_timestamp, Call.isTimestampNode]
  · intro req peers node hl hn
    rcases ht : env.timestampNode node false true false (sendExtPeers env peers s).1
      with ⟨e, s2⟩
    cases e <;>
      simp [GetExtPeers, hl, hn, ht, sendExtPeers_no_timestamp, Call.isTimestampNode]

/-- Witness of `peer_fetch_timestamps_after_sends`: `AA:BB` fetches the peers
of `lab` over a stream the caller has closed. -/
theorem peer_fetch_timestamps_after_sends_witness :
    (GetPeers (memCollab false) peersReq labStoreCanceled).calls.filter
        Call.isTimestampNode = [Call.timestampNode nodeA false true false] ∧
    (GetPeers (memCollab false) peersReq labStoreCanceled).state
      = ((memCollab false).timestampNode nodeA false true false
          (sendPeers (memCollab false) [peerOfNode nodeA, peerOfNode nodeB]
            labStoreCanceled).1).2 :=
  (peer_fetch_timestamps_after_sends (memCollab false) labStoreCanceled).1 peersReq
    [peerOfNode nodeA, peerOfNode nodeB] nodeA rfl rfl

/-- C7, as stated, fails: `AA:BB`, last synchronised at version 2 of `lab`
(now at version 3), fetches peers and external peers over a stream the caller
has closed; every send returns an error, `TimestampNode` is called all the
same, and the recorded version of `AA:BB` moves to 3. -/
theorem peer_fetch_canceled_still_timestamps :
    someSendFailed (GetPeers (memCollab false) peersReq labStoreCanceled).calls = true ∧
    Call.timestampNode nodeA false true false ∈
      (GetPeers (memCollab false) peersReq labStoreCanceled).calls ∧
    labStoreCanceled.lastSynced "AA:BB" = 2 ∧
    (GetPeers (memCollab false) peersReq labStoreCanceled).state.lastSynced "AA:BB" = 3 ∧
    someSendFailed (GetExtPeers (memCollab false) extPeersReq labStoreCanceled).calls
      = true ∧
    Call.timestampNode nodeA false true false ∈
      (GetExtPeers (memCollab false) extPeersReq labStoreCanceled).calls ∧
    (GetExtPeers (memCollab false) extPeersReq labStoreCanceled).state.lastSynced "AA:BB"
      = 3 := by
  decide

/-- C8, as amended: the messages `GetPeers` hands to the stream are the list
`GetPeersList(network)` returns, mapped field by field, in order and in full;
the requesting hardware address takes no part in it, so two requesters of one
network are sent the same sequence. -/
theorem GetPeers_sends_whole_list {σ : Type} (env : Collab σ) (req : GetPeersReq)
    (s : σ) (peers : List PeersResponse)
    (hl : env.getPeersList req.Network s = .ok peers) :
    sentPeers (GetPeers env req s).calls = peers.map pbPeer ∧
    (∀ macaddress, sentPeers
        (GetPeers env { req with Macaddress := macaddress } s).calls
      = sentPeers (GetPeers env req s).calls) := by
  have key : ∀ r : GetPeersReq, r.Network = req.Network →
      sentPeers (GetPeers env r s).calls = peers.map pbPeer := by
    intro r hr
    have hl2 : env.getPeersList r.Network s = .ok peers := by rw [hr]; exact hl
    cases hn : env.getNodeByMacAddress r.Network r.Macaddress (sendPeers env peers s).1
      with
    | error err => simp [GetPeers, hl2, hn, sentPeers_sendPeers]
    | ok node =>
      rcases ht : env.timestampNode node false true false (sendPeers env peers s).1
        with ⟨e, s2⟩
      cases e <;>
        simp [GetPeers, hl2, hn, ht, sentPeers_append, sentPeers_sendPeers, sentPeers]
  refine ⟨key req rfl, ?_⟩
  intro macaddress
  rw [key req rfl, key { req with Macaddress := macaddress } rfl]

/-- Witness of `GetPeers_sends_whole_list`: `AA:BB` fetches the peers of
`lab`. -/
theorem GetPeers_sends_whole_list_witness :
    sentPeers (GetPeers (memCollab false) peersReq labStore).calls
      = [peerOfNode nodeA, peerOfNode nodeB].map pbPeer :=
  (GetPeers_sends_whole_list (memCollab false) peersReq labStore
    [peerOfNode nodeA, peerOfNode nodeB] rfl).1

/-- C8, as stated, fails: `AA:BB` is a node of `lab` that is not pending, and
the stream of its peer fetch contains its own descriptor. -/
theorem GetPeers_sends_requester :
    labStore.findNode peersReq.Macaddress peersReq.Network = some nodeA ∧
    nodeA.IsPending = false ∧
    pbPeer (peerOfNode nodeA) ∈
      sentPeers (GetPeers (memCollab false) peersReq labStore).calls := by
  decide

/-! ## Version bumps and validation -/

/-- A successful `CreateNode` issues exactly one version bump. -/
theorem CreateNode_bumps_once {σ : Type} (env : Collab σ) (req : CreateNodeReq) (s : σ)
    (hok : (CreateNode env req s).failed = false) :
    ((CreateNode env req s).calls.filter Call.isVersionBump).length = 1 := by
  unfold CreateNode at hok ⊢
  cases hv : env.validate (createNodeOfReq req) false s with
  | some err => simp [hv, Outcome.failed] at hok
  | none =>
    rcases hp : env.getParentNetwork (createNodeOfReq req).Network s with ⟨nw, e⟩
    cases e with
    | some err => simp [hv, hp, Outcome.failed] at hok
    | none =>
      cases ha : admission (env.isKeyValid (createNodeOfReq req).Network
          (createNodeOfReq req).AccessKey s) nw (createNodeOfReq req) with
      | error e1 => simp [hv, hp, ha, Outcome.failed] at hok
      | ok node1 =>
        rcases hc : env.createNode node1 node1.Network s with ⟨r, s1⟩
        cases r with
        | error err => simp [hv, hp, ha, hc, Outcome.failed] at hok
        | ok node2 =>
          rcases hb : env.setNetworkNodesLastModified node2.Network s1 with ⟨b, s2⟩
          cases b with
          | some err => simp [hv, hp, ha, hc, hb, Outcome.failed] at hok
          | none => simp [hv, hp, ha, hc, hb, Call.isVersionBump]

/-- A successful `DeleteNode` issues exactly one version bump. -/
theorem DeleteNode_bumps_once {σ : Type} (env : Collab σ) (req : DeleteNodeReq) (s : σ)
    (hok : (DeleteNode env req s).failed = false) :
    ((DeleteNode env req s).calls.filter Call.isVersionBump).length = 1 := by
  unfold DeleteNode at hok ⊢
  rcases hd : env.deleteNode req.Macaddress req.NetworkName s with ⟨d, s1⟩
  cases d with
  | some err => simp [hd, Outcome.failed] at hok
  | none =>
    rcases hb : env.setNetworkNodesLastModified req.NetworkName s1 with ⟨b, s2⟩
    cases b with
    | some err => simp [hd, hb, Outcome.failed] at hok
    | none => simp [hd, hb, Call.isVersionBump]

/-- No run of `UpdateNode` issues a version bump. -/
theorem UpdateNode_never_bumps {σ : Type} (env : Collab σ) (req : UpdateNodeReq) (s : σ) :
    (UpdateNode env req s).calls.filter Call.isVersionBump = [] := by
  unfold UpdateNode
  cases hv : env.validate (updateNodeOfReq req) true s with
  | some err => simp [hv]
  | none =>
    cases hn : env.getNodeByMacAddress (updateNodeOfReq req).Network
        (updateNodeOfReq req).MacAddress s with
    | error err => simp [hv, hn]
    | ok node =>
      rcases hu : env.nodeUpdate node (updateNodeOfReq req) s with ⟨⟨e, n1⟩, s1⟩
      cases e <;> simp [hv, hn, hu, Call.isVersionBump]

/-- C9, at the failing input: `AA:BB` rotates its public key through
`UpdateNode`; the update succeeds and is stored, the handler issues the node
update and no version bump, and `lab` stays at version 3. -/
theorem UpdateNode_rotates_key_without_bump :
    (UpdateNode (memCollab false) rotateKeyReq labStore).failed = false ∧
    (UpdateNode (memCollab false) rotateKeyReq labStore).calls
      = [Call.nodeUpdate nodeA (updateNodeOfReq rotateKeyReq)] ∧
    ((UpdateNode (memCollab false) rotateKeyReq labStore).calls.filter
      Call.isVersionBump).length = 0 ∧
    ((UpdateNode (memCollab false) rotateKeyReq labStore).state.findNode "AA:BB" "lab").map
      (fun n => n.PublicKey) = some "pkA2" ∧
    (labStore.findNode "AA:BB" "lab").map (fun n => n.PublicKey) = some "pkA" ∧
    labStore.nodesLastModified = 3 ∧
    (UpdateNode (memCollab false) rotateKeyReq labStore).state.nodesLastModified = 3 := by
  decide

/-- C10: a `CreateNode` or `UpdateNode` whose node fails validation fails,
issues no writer call (no insert, no update, no version bump) and leaves the
store as it was; `CreateNode` returns the validation error unchanged, and so
does `UpdateNode`. -/
theorem validation_failure_mutates_nothing {σ : Type} (env : Collab σ) (s : σ) :
    (∀ (req : CreateNodeReq) (e : String),
      env.validate (createNodeOfReq req) false s = some e →
      (CreateNode env req s).result = .error (.passthrough e) ∧
      (CreateNode env req s).calls = [] ∧ (CreateNode env req s).state = s) ∧
    (∀ (req : UpdateNodeReq) (e : String),
      env.validate (updateNodeOfReq req) true s = some e →
      (UpdateNode env req s).result = .error (.passthrough e) ∧
      (UpdateNode env req s).calls = [] ∧ (UpdateNode env req s).state = s) := by
  constructor
  · intro req e hv
    simp [CreateNode, hv]
  · intro req e hv
    simp [UpdateNode, hv]

/-- Witness of `validation_failure_mutates_nothing`: a registration and an
update with an empty hardware address. -/
theorem validation_failure_mutates_nothing_witness :
    ((CreateNode (memCollab false) {} labStore).result
        = .error (.passthrough "macaddress is required") ∧
      (CreateNode (memCollab false) {} labStore).calls = [] ∧
      (CreateNode (memCollab false) {} labStore).state = labStore) ∧
    ((UpdateNode (memCollab false) {} labStore).result
        = .error (.passthrough "macaddress is required") ∧
      (UpdateNode (memCollab false) {} labStore).calls = [] ∧
      (UpdateNode (memCollab false) {} labStore).state = labStore) :=
  ⟨(validation_failure_mutates_nothing (memCollab false) labStore).1 {}
      "macaddress is required" (by decide),
   (validation_failure_mutates_nothing (memCollab false) labStore).2 {}
      "macaddress is required" (by decide)⟩

end Netmaker
